import Mathlib

/-!
Verification development for the cfbind dynamic-DNS client
(src/main.rs of lsgrep/cfbind).

The program keeps a Cloudflare "A" record synchronized with the current
public IP of the host.  All network exchanges (HTTP requests against the
Cloudflare API and the public-IP service) are modelled by their outcomes,
passed in as explicit `Except String` values: `Except.error e` is a failed
transport or deserialization step (a Rust `Err` propagated by the `?`
operator), `Except.ok v` a successful response already deserialized.  The
pure decision logic of each Rust function is translated directly.
-/

namespace Cfbind

/-- A DNS zone as deserialized from the provider (struct `Zone`,
src/main.rs lines 29-33). -/
structure Zone where
  id : String
  name : String
  deriving DecidableEq, Repr

/-- A DNS record (struct `DNSRecord`, src/main.rs lines 35-44).  The field
`record_type` is the Rust field of the same name, serialized as "type";
`ttl : u32` is modelled as `Nat`. -/
structure DNSRecord where
  id : Option String
  name : String
  content : String
  record_type : String
  proxied : Bool
  ttl : Nat
  deriving DecidableEq, Repr

/-- Response envelope of the zone-listing endpoint (struct `ZoneResponse`,
src/main.rs lines 24-27). -/
structure ZoneResponse where
  result : List Zone
  deriving DecidableEq, Repr

/-- Response envelope of the record-listing endpoint
(struct `DNSRecordResponse`, src/main.rs lines 46-52).  Note the code never
inspects `success`, `errors` or `messages`. -/
structure DNSRecordResponse where
  result : List DNSRecord
  success : Bool
  errors : List String
  messages : List String
  deriving DecidableEq, Repr

/-- Rust `fetch_zones_by_domain` (src/main.rs lines 54-69).  The HTTP GET on
`/zones?name=domain` is modelled by its outcome `resp`; the `domain` and
`api_key` arguments only shape that request.  On success the function
returns `response.result.into_iter().next()`: the first listed zone, or
`None` when the listing is empty.  No case is an error. -/
def fetch_zones_by_domain (resp : Except String ZoneResponse) :
    Except String (Option Zone) :=
  match resp with
  | .error e => .error e
  | .ok response => .ok response.result.head?

/-- Rust `get_current_ip` (src/main.rs lines 71-77).  The GET on the
public-IP service is modelled by its outcome: `resp` is the response body
text, or a transport error.  The body is returned as-is; the code performs
no validation of any kind on it. -/
def get_current_ip (resp : Except String String) : Except String String :=
  match resp with
  | .error e => .error e
  | .ok response => .ok response

/-- Rust `get_dns_record` (src/main.rs lines 79-98).  The filtered record
listing (GET on `/zones/id/dns_records?name=..&type=..`) is modelled by its
outcome `resp`.  The code returns `Ok(Some(record))` exactly when the
listing holds exactly one record, and `Ok(None)` otherwise - both for an
empty listing and for a listing with two or more records. -/
def get_dns_record (resp : Except String DNSRecordResponse) :
    Except String (Option DNSRecord) :=
  match resp with
  | .error e => .error e
  | .ok response =>
    if response.result.length = 1 then
      .ok response.result.head?
    else
      .ok none

/-- The externally visible effect of one `update_zone` run: which HTTP call
was issued with which body, or what happened instead. -/
inductive UpdateOutcome where
  /-- A PUT on `/zones/id/dns_records/recordId` with body `data`
  (the update branch, src/main.rs lines 118-129). -/
  | issuedPut (recordId : String) (data : DNSRecord)
  /-- A POST on `/zones/id/dns_records` with body `data`
  (the create branch, src/main.rs lines 130-139). -/
  | issuedPost (data : DNSRecord)
  /-- The listing failed; the error was printed and no call was issued
  (src/main.rs lines 140-142). -/
  | loggedError (e : String)
  /-- The single listed record had no id: `record.id.unwrap()` panics
  (src/main.rs line 119). -/
  | panicked
  deriving DecidableEq, Repr

/-- The request body built by `update_zone` (src/main.rs lines 108-115):
type is hard-coded to "A", ttl to 1 (the Cloudflare "automatic" sentinel),
proxied to the negation of the disable-proxy flag. -/
def desired_record (name content : String) (disable_proxy : Bool) : DNSRecord :=
  { id := none, name := name, content := content, record_type := "A",
    proxied := !disable_proxy, ttl := 1 }

/-- Rust `update_zone` (src/main.rs lines 100-145).  `listResp` models the
outcome of the record listing performed by `get_dns_record`; `sendResp`
models the outcome of the PUT or POST that may follow (its `?`-propagated
transport result).  Returns the visible effect and the Rust return value:
the listing-error branch prints and falls through to `Ok(())`. -/
def update_zone (name content : String) (disable_proxy : Bool)
    (listResp : Except String DNSRecordResponse)
    (sendResp : Except String Unit) :
    UpdateOutcome × Except String Unit :=
  let data : DNSRecord :=
    { id := none, name := name, content := content, record_type := "A",
      proxied := !disable_proxy, ttl := 1 }
  match get_dns_record listResp with
  | .ok (some record) =>
    match record.id with
    | some rid => (.issuedPut rid data, sendResp)
    | none => (.panicked, .ok ())
  | .ok none => (.issuedPost data, sendResp)
  | .error e => (.loggedError e, .ok ())

/-- Rust `str::to_lowercase` (src/main.rs line 148), modelled on the
character list of the string (ASCII case folding, which agrees with the
Rust function on the ASCII domain names in play). -/
def to_lowercase (s : String) : String := String.mk (s.data.map Char.toLower)

/-- Rust `str::starts_with` (src/main.rs line 149), modelled on character
lists: the second string is a prefix of the first. -/
def starts_with (s p : String) : Bool := s.data.take p.data.length == p.data

/-- Rust `parse_root_domain` (src/main.rs lines 147-162).  Lines 148-153
build `url_str`: the domain itself when its lowercase starts with "http",
and "https://" ++ domain otherwise.  Line 154 calls into the url crate:
`Url::parse(url_str).unwrap().host_str().ok_or(..).unwrap()`.  That
external-library call is modelled by the oracle `hostOf`, the composition
of `Url::parse` and `host_str`: `some h` when parsing succeeds with host
`h` (the crate normalizes hosts to lowercase), and `none` when parsing
fails or the URL has no host, in which case an `unwrap` panics - modelled
as the overall result `none`.  On a host, the code splits on the char `.`,
keeps the host whole at two or fewer labels, and otherwise joins the last
two labels with `.`; both reachable returns are `Ok`. -/
def parse_root_domain (hostOf : String → Option String) (domain : String) :
    Option (Except String String) :=
  let lower_case_domain := to_lowercase domain
  let url_str :=
    if starts_with lower_case_domain "http" || starts_with lower_case_domain "https"
    then domain
    else "https://" ++ domain
  match hostOf url_str with
  | none => none
  | some host =>
    let parts := host.split (fun c => c == '.')
    if parts.length ≤ 2 then
      some (.ok host)
    else
      some (.ok (String.intercalate "." (parts.drop (parts.length - 2))))

/-- Model of the url crate (an external dependency, not code of this
repository) at the two input shapes `parse_root_domain` builds, per the
documented parsing rules of the crate: an input "https://" ++ rest with
`rest` a bare host parses successfully and the crate returns the host
normalized to lowercase; an input without a scheme separator - such as a
bare FQDN whose lowercase starts with "http", which line 150 passes to the
parser unchanged - fails to parse, so `host_str` is never reached and the
first `unwrap` panics ("https://" is eight characters, hence the drop). -/
def url_host : String → Option String := fun s =>
  if starts_with s "https://"
  then some (to_lowercase (String.mk (s.data.drop 8)))
  else none

/-- Environment of one tick of the updater loop (src/main.rs lines 168-173):
the outcome of the public-IP GET, of the record listing inside
`update_zone`, and of the create or update call it may issue. -/
structure TickEnv where
  ipResp : Except String String
  listResp : Except String DNSRecordResponse
  sendResp : Except String Unit
  deriving Repr

/-- Result of one tick of the updater loop. -/
inductive TickResult where
  /-- An `unwrap()` hit an `Err` (or `record.id.unwrap()` a `None`): the
  spawned task panics, the loop terminates, and `try_join!` in `main`
  surfaces the join error, ending the process. -/
  | panicked
  /-- The tick ran to completion with the given visible effect; the loop
  sleeps 60 seconds and continues. -/
  | completed (outcome : UpdateOutcome)
  deriving DecidableEq, Repr

/-- One iteration of the loop body inside `create_updater`
(src/main.rs lines 168-173): `get_current_ip().await.unwrap()` then
`update_zone(..).await.unwrap()`.  Any `Err` from either call panics the
task instead of being handled. -/
def updater_tick (domain : String) (disable_proxy : Bool) (env : TickEnv) :
    TickResult :=
  match get_current_ip env.ipResp with
  | .error _ => .panicked
  | .ok current_ip =>
    match update_zone domain current_ip disable_proxy env.listResp env.sendResp with
    | (.panicked, _) => .panicked
    | (_, .error _) => .panicked
    | (o, .ok _) => .completed o

/-- The updater loop of `create_updater` (src/main.rs lines 164-177) run
against a finite prefix of tick environments (the real loop is infinite).
Returns the visible effects of the completed ticks, and `true` when the
loop terminated by a panic: every environment after the panicking one is
never attempted. -/
def run_loop (domain : String) (disable_proxy : Bool) :
    List TickEnv → List UpdateOutcome × Bool
  | [] => ([], false)
  | env :: rest =>
    match updater_tick domain disable_proxy env with
    | .panicked => ([], true)
    | .completed o =>
      let r := run_loop domain disable_proxy rest
      (o :: r.1, r.2)

/-- How the `main` function (src/main.rs lines 180-204) leaves the process,
up to the point where the updater loop is entered. -/
inductive MainResult where
  /-- `main` returned `Err` through a `?`: the process exits non-zero. -/
  | err (e : String)
  /-- An `unwrap` inside `parse_root_domain` panicked on the main thread:
  the process aborts with the Rust panic exit status 101, before any zone
  lookup. -/
  | panicked
  /-- `fetch_zones_by_domain` returned `Ok(None)`: `main` prints
  "No zone found for domain", `create_updater` is passed `None` and its
  task returns `Ok(())` immediately without looping, `try_join!` succeeds,
  and `main` returns `Ok(())`: the process exits with status zero. -/
  | noZoneExit
  /-- A zone was found: the task of `create_updater` enters the infinite
  reconciliation loop on that zone. -/
  | loops (zone : Zone)
  deriving DecidableEq, Repr

/-- Process exit status under each `MainResult`: `none` while the loop
runs (no normal exit). -/
def mainResultExitCode : MainResult → Option Nat
  | .err _ => some 1
  | .panicked => some 101
  | .noZoneExit => some 0
  | .loops _ => none

/-- Startup flow of `main` (src/main.rs lines 180-204): derive the root
domain (panicking when the url-crate call does), list zones by that name
(`zonesFor` maps the queried root domain to the outcome of the listing
request), then either propagate an error, print the no-zone diagnostic and
return `Ok(())`, or enter the loop on the first zone found. -/
def mainFlow (hostOf : String → Option String) (domain : String)
    (zonesFor : String → Except String ZoneResponse) : MainResult :=
  match parse_root_domain hostOf domain with
  | none => .panicked
  | some (.error e) => .err e
  | some (.ok root) =>
    match fetch_zones_by_domain (zonesFor root) with
    | .error e => .err e
    | .ok (some zone) => .loops zone
    | .ok none => .noZoneExit

/-- Whether a stored record matches the name-and-type filter of the
record-listing request issued by `get_dns_record`. -/
def matchesQuery (name ty : String) (r : DNSRecord) : Bool :=
  r.name == name && r.record_type == ty

/-- The record store of one provider zone, for reasoning about repeated
reconciliation against a provider that applies the issued calls. -/
structure ProviderZoneState where
  records : List DNSRecord
  deriving DecidableEq, Repr

/-- The response the provider gives to the filtered record listing of
`get_dns_record`: the records matching the name-and-type query. -/
def listResponse (st : ProviderZoneState) (name ty : String) :
    DNSRecordResponse :=
  { result := st.records.filter (matchesQuery name ty),
    success := true, errors := [], messages := [] }

/-- Provider-side effect of the call issued by `update_zone`: a PUT on a
record id overwrites every field of that record with the request body
(keeping the id from the URL); a POST appends a new record carrying a
provider-assigned `freshId`; no call, no change. -/
def applyOutcome (st : ProviderZoneState) (freshId : String) :
    UpdateOutcome → ProviderZoneState
  | .issuedPut rid data =>
    ⟨st.records.map fun r =>
      if r.id == some rid then { data with id := some rid } else r⟩
  | .issuedPost data => ⟨st.records ++ [{ data with id := some freshId }]⟩
  | .loggedError _ => st
  | .panicked => st

/-- One reconciliation of a zone in state `st` against the desired
name, content and proxy flag: `update_zone` run on the listing the
provider produces for `st`, and the provider state after the issued call
(with `freshId` the id the provider would assign to a created record). -/
def reconcile (st : ProviderZoneState) (name content : String)
    (disable_proxy : Bool) (freshId : String) :
    UpdateOutcome × ProviderZoneState :=
  let o := (update_zone name content disable_proxy
    (.ok (listResponse st name "A")) (.ok ())).1
  (o, applyOutcome st freshId o)

/-- The request body carried by the call an `UpdateOutcome` issued, if it
issued one. -/
def outcomeBody : UpdateOutcome → Option DNSRecord
  | .issuedPut _ d => some d
  | .issuedPost d => some d
  | .loggedError _ => none
  | .panicked => none

/-- Evaluation of the root-domain derivation at home.example.com under the
url-crate model: no panic, apex example.com. -/
theorem parse_root_domain_home :
    parse_root_domain url_host "home.example.com" = some (.ok "example.com") := by
  have hcond : (starts_with (to_lowercase "home.example.com") "http" ||
      starts_with (to_lowercase "home.example.com") "https") = false := by decide
  have hhost : url_host "https://home.example.com" = some "home.example.com" := by
    decide
  simp [parse_root_domain, hcond, hhost, String.split_of_valid,
    String.intercalate, String.intercalate.go]

/-- Evaluation of the root-domain derivation at other.example.org under the
url-crate model: no panic, apex example.org. -/
theorem parse_root_domain_other :
    parse_root_domain url_host "other.example.org" = some (.ok "example.org") := by
  have hcond : (starts_with (to_lowercase "other.example.org") "http" ||
      starts_with (to_lowercase "other.example.org") "https") = false := by decide
  have hhost : url_host "https://other.example.org" = some "other.example.org" := by
    decide
  simp [parse_root_domain, hcond, hhost, String.split_of_valid,
    String.intercalate, String.intercalate.go]

example : parse_root_domain url_host "example.com" = some (.ok "example.com") := by
  have hcond : (starts_with (to_lowercase "example.com") "http" ||
      starts_with (to_lowercase "example.com") "https") = false := by decide
  have hhost : url_host "https://example.com" = some "example.com" := by
    decide
  simp [parse_root_domain, hcond, hhost, String.split_of_valid]

/-- Claim C1: the claim (with the spec) mandates that a record listing with
more than one record matching the name-and-type query makes reconciliation
fail with an AmbiguousStateError and issue no create or update call.  The
code has no such error: `get_dns_record` treats every listing whose length
differs from one as "no record found" and returns `Ok(None)`, upon which
`update_zone` issues a create (POST).  At a listing holding two matching A
records, the cycle therefore creates a third record instead of failing. -/
theorem claim1_two_records_issue_create :
    get_dns_record (.ok ⟨[⟨some "11", "home.example.com", "1.1.1.1", "A", true, 1⟩,
        ⟨some "22", "home.example.com", "2.2.2.2", "A", true, 1⟩], true, [], []⟩)
      = .ok none ∧
    (update_zone "home.example.com" "3.3.3.3" false
        (.ok ⟨[⟨some "11", "home.example.com", "1.1.1.1", "A", true, 1⟩,
          ⟨some "22", "home.example.com", "2.2.2.2", "A", true, 1⟩], true, [], []⟩)
        (.ok ())).1
      = .issuedPost (desired_record "home.example.com" "3.3.3.3" false) := by
  constructor <;> rfl

/-- Claim C5: the claim states a failure of IP resolution or reconciliation
in one tick is logged, the tick becomes a no-op, and the loop continues to
the next scheduled tick.  The code instead calls `.unwrap()` on both
results inside the loop: the first transport failure panics the spawned
task and the loop terminates, so a following healthy tick is never
attempted.  Here the first tick fails to resolve the IP and the loop ends
with no completed tick. -/
theorem claim5_transient_failure_terminates_loop :
    run_loop "home.example.com" false
        [⟨.error "connection timed out", .ok ⟨[], true, [], []⟩, .ok ()⟩,
         ⟨.ok "1.2.3.4", .ok ⟨[], true, [], []⟩, .ok ()⟩]
      = ([], true) := rfl

/-- Claim C6: the claim states the resolver validates the response body as
a dotted-quad IPv4 address and fails with FormatError on a body such as
"not-an-ip", with no reconciliation call attempted that cycle.  The code
performs no validation: `get_current_ip` returns the body as-is, and the
tick proceeds to issue a create call whose record content is the malformed
body. -/
theorem claim6_malformed_ip_is_used :
    get_current_ip (.ok "not-an-ip") = .ok "not-an-ip" ∧
    updater_tick "home.example.com" false
        ⟨.ok "not-an-ip", .ok ⟨[], true, [], []⟩, .ok ()⟩
      = .completed (.issuedPost
          (desired_record "home.example.com" "not-an-ip" false)) := by
  constructor <;> rfl

/-- Claim C10: when the record listing inside `update_zone` fails, the
error branch prints the error, issues neither a create nor an update call,
and the function still returns `Ok(())` - for every input, so a listing
failure is indistinguishable from a successful reconciliation at the
caller. -/
theorem claim10_listing_error_returns_ok (name content : String)
    (disable_proxy : Bool) (e : String) (sendResp : Except String Unit) :
    update_zone name content disable_proxy (.error e) sendResp
      = (.loggedError e, .ok ()) := rfl

/-- Claim C3, counterexample: the claim states zone location fails whenever
the number of zones matching the apex is zero or more than one, and never
silently resolves to the first of several matches.  With a listing of two
zones of the queried name, `fetch_zones_by_domain` succeeds and returns the
first one. -/
theorem claim3_counterexample :
    fetch_zones_by_domain
        (.ok ⟨[⟨"zone-one", "example.com"⟩, ⟨"zone-two", "example.com"⟩]⟩)
      = .ok (some ⟨"zone-one", "example.com"⟩) := rfl

/-- Claim C3, amended: whenever startup reaches the zone lookup (the
root-domain derivation returns instead of panicking) and the listing
returns at least one zone, `fetch_zones_by_domain` yields the first zone
of the listing and `main` enters the reconciliation loop on it, silently
ignoring any further matches - no zero-or-multiple-match case raises an
error. -/
theorem claim3_first_listed_zone_wins (hostOf : String → Option String)
    (domain root : String) (z : Zone) (zs : List Zone)
    (zonesFor : String → Except String ZoneResponse)
    (hroot : parse_root_domain hostOf domain = some (.ok root))
    (hz : zonesFor root = .ok ⟨z :: zs⟩) :
    mainFlow hostOf domain zonesFor = .loops z := by
  simp [mainFlow, hroot, hz, fetch_zones_by_domain]

/-- Witness for the amended claim C3 at a concrete two-zone listing under
the url-crate model. -/
theorem claim3_first_listed_zone_wins_witness :
    mainFlow url_host "home.example.com"
        (fun _ => .ok ⟨[⟨"zone-one", "example.com"⟩, ⟨"zone-two", "example.com"⟩]⟩)
      = .loops ⟨"zone-one", "example.com"⟩ :=
  claim3_first_listed_zone_wins url_host "home.example.com" "example.com"
    ⟨"zone-one", "example.com"⟩ [⟨"zone-two", "example.com"⟩] _
    parse_root_domain_home rfl

/-- Claim C7, counterexample: the claim states that when no zone is found
at startup the process exits with a non-zero status.  With an empty zone
listing for home.example.com, `main` prints the no-zone diagnostic, the
updater task returns `Ok(())` immediately, `try_join!` succeeds, and
`main` returns `Ok(())`: the process exits with status zero. -/
theorem claim7_counterexample :
    mainFlow url_host "home.example.com" (fun _ => .ok ⟨[]⟩) = .noZoneExit ∧
    mainResultExitCode (mainFlow url_host "home.example.com" (fun _ => .ok ⟨[]⟩))
      = some 0 := by
  simp [mainFlow, parse_root_domain_home, fetch_zones_by_domain,
    mainResultExitCode]

/-- Claim C7, amended: when startup reaches the zone lookup (the
root-domain derivation returns instead of panicking) and it finds no zone,
`main` prints a diagnostic and never enters the reconciliation loop, but
the process exits with status zero rather than non-zero. -/
theorem claim7_no_zone_exits_zero (hostOf : String → Option String)
    (domain root : String) (zonesFor : String → Except String ZoneResponse)
    (hroot : parse_root_domain hostOf domain = some (.ok root))
    (hz : zonesFor root = .ok ⟨[]⟩) :
    mainFlow hostOf domain zonesFor = .noZoneExit ∧
    mainResultExitCode (mainFlow hostOf domain zonesFor) = some 0 := by
  simp [mainFlow, hroot, hz, fetch_zones_by_domain, mainResultExitCode]

/-- Witness for the amended claim C7 at a concrete empty listing under the
url-crate model. -/
theorem claim7_no_zone_exits_zero_witness :
    mainFlow url_host "other.example.org" (fun _ => .ok ⟨[]⟩) = .noZoneExit ∧
    mainResultExitCode (mainFlow url_host "other.example.org" (fun _ => .ok ⟨[]⟩))
      = some 0 :=
  claim7_no_zone_exits_zero url_host "other.example.org" "example.org" _
    parse_root_domain_other rfl

/-- Claim C2, counterexample: the claim states that for every FQDN the
computed apex is the FQDN itself at two or fewer labels, and the last two
labels otherwise.  Two concrete FQDNs refute it.  The two-label FQDN
Example.COM does not have its lowercase start with "http", so the program
parses "https://Example.COM"; the url crate lowercases the host, so the
apex is example.com, not the FQDN itself.  The three-label FQDN
http.example.com has its lowercase start with "http", so line 150 passes
it to `Url::parse` unchanged; lacking a scheme separator it fails to
parse, the `unwrap` of line 154 panics, and no apex is computed at all. -/
theorem claim2_counterexample :
    parse_root_domain url_host "Example.COM" = some (.ok "example.com") ∧
    ("example.com" : String) ≠ "Example.COM" ∧
    parse_root_domain url_host "http.example.com" = none := by
  refine ⟨?_, by decide, ?_⟩
  · have hcond : (starts_with (to_lowercase "Example.COM") "http" ||
        starts_with (to_lowercase "Example.COM") "https") = false := by decide
    have hhost : url_host "https://Example.COM" = some "example.com" := by decide
    simp [parse_root_domain, hcond, hhost, String.split_of_valid]
  · have hcond : (starts_with (to_lowercase "http.example.com") "http" ||
        starts_with (to_lowercase "http.example.com") "https") = true := by decide
    have hhost : url_host "http.example.com" = none := by decide
    simp [parse_root_domain, hcond, hhost]

/-- Claim C2, amended: for every domain whose lowercase does not start
with "http" and which the url-crate host extraction returns unchanged as
the host of "https://" ++ domain (in particular every lowercase well-formed
FQDN), the apex rule holds with no panic: at two or fewer dot-separated
labels the apex is the FQDN itself, and at more the apex is the last two
labels joined by a dot.  Domains whose lowercase starts with "http" are
handed to the URL parser without a scheme being prepended (typically a
panic), and mixed-case FQDNs are first lowercased by the parser. -/
theorem claim2_apex_derivation (hostOf : String → Option String) (host : String)
    (hplain : (starts_with (to_lowercase host) "http" ||
        starts_with (to_lowercase host) "https") = false)
    (hhost : hostOf ("https://" ++ host) = some host) :
    ((host.split (fun c => c == '.')).length ≤ 2 →
      parse_root_domain hostOf host = some (.ok host)) ∧
    (2 < (host.split (fun c => c == '.')).length →
      ∃ l1 l2,
        (host.split (fun c => c == '.')).drop
            ((host.split (fun c => c == '.')).length - 2) = [l1, l2] ∧
        parse_root_domain hostOf host = some (.ok (l1 ++ "." ++ l2))) := by
  constructor
  · intro h
    simp [parse_root_domain, hplain, hhost, h]
  · intro h
    have hlen : ((host.split (fun c => c == '.')).drop
        ((host.split (fun c => c == '.')).length - 2)).length = 2 := by
      rw [List.length_drop]; omega
    obtain ⟨l1, l2, hds⟩ := List.length_eq_two.mp hlen
    refine ⟨l1, l2, hds, ?_⟩
    have hnot : ¬ (host.split (fun c => c == '.')).length ≤ 2 := by omega
    simp only [parse_root_domain, hplain, Bool.false_eq_true, if_false, hhost]
    rw [if_neg hnot, hds]
    rfl

/-- Witness for the amended claim C2 at the three-label FQDN
home.example.com under the url-crate model. -/
theorem claim2_apex_derivation_witness :
    ∃ l1 l2,
      ("home.example.com".split (fun c => c == '.')).drop
          (("home.example.com".split (fun c => c == '.')).length - 2) = [l1, l2] ∧
      parse_root_domain url_host "home.example.com" = some (.ok (l1 ++ "." ++ l2)) :=
  (claim2_apex_derivation url_host "home.example.com" (by decide) (by decide)).2
    (by simp [String.split_of_valid])

/-- Claim C4: when the listing holds exactly one record, `update_zone`
issues an update (PUT) addressed by that record id, with the desired body;
when it holds no record, it issues a create (POST) carrying the desired
name, content, proxied flag and ttl. -/
theorem claim4_one_updates_zero_creates (name content : String)
    (disable_proxy : Bool) (response : DNSRecordResponse)
    (sendResp : Except String Unit) (r : DNSRecord) (rid : String) :
    (response.result = [r] → r.id = some rid →
      update_zone name content disable_proxy (.ok response) sendResp
        = (.issuedPut rid (desired_record name content disable_proxy), sendResp)) ∧
    (response.result = [] →
      update_zone name content disable_proxy (.ok response) sendResp
        = (.issuedPost (desired_record name content disable_proxy), sendResp)) := by
  constructor
  · intro hres hid
    simp [update_zone, get_dns_record, hres, hid, desired_record]
  · intro hres
    simp [update_zone, get_dns_record, hres, desired_record]

/-- Witness for claim C4: one listed record with id rec-1 leads to a PUT on
rec-1. -/
theorem claim4_one_updates_zero_creates_witness :
    update_zone "home.example.com" "5.6.7.8" false
        (.ok ⟨[⟨some "rec-1", "home.example.com", "1.2.3.4", "A", true, 1⟩],
          true, [], []⟩)
        (.ok ())
      = (.issuedPut "rec-1" (desired_record "home.example.com" "5.6.7.8" false),
         .ok ()) :=
  (claim4_one_updates_zero_creates "home.example.com" "5.6.7.8" false
      ⟨[⟨some "rec-1", "home.example.com", "1.2.3.4", "A", true, 1⟩], true, [], []⟩
      (.ok ()) ⟨some "rec-1", "home.example.com", "1.2.3.4", "A", true, 1⟩
      "rec-1").1 rfl rfl

/-- Claim C9: every request body issued by `update_zone` - create or
update, for every input - carries type "A" and ttl 1 (the Cloudflare
automatic sentinel), and its proxied field is the negation of the
disable-proxy flag; name and content are the desired ones. -/
theorem claim9_body_fields_fixed (name content : String) (disable_proxy : Bool)
    (listResp : Except String DNSRecordResponse) (sendResp : Except String Unit)
    (d : DNSRecord)
    (h : outcomeBody
        (update_zone name content disable_proxy listResp sendResp).1 = some d) :
    d.record_type = "A" ∧ d.ttl = 1 ∧ d.proxied = !disable_proxy ∧
      d.name = name ∧ d.content = content := by
  simp only [update_zone] at h
  split at h
  · split at h
    · simp only [outcomeBody] at h
      injection h with h
      subst h
      exact ⟨rfl, rfl, rfl, rfl, rfl⟩
    · simp only [outcomeBody] at h
      exact absurd h (by simp)
  · simp only [outcomeBody] at h
    injection h with h
    subst h
    exact ⟨rfl, rfl, rfl, rfl, rfl⟩
  · simp only [outcomeBody] at h
    exact absurd h (by simp)

/-- With no stored record matching the query, one reconciliation issues a
create and the provider appends the new record under the fresh id. -/
theorem reconcile_no_match (st : ProviderZoneState) (name content : String)
    (disable_proxy : Bool) (f : String)
    (h : st.records.filter (matchesQuery name "A") = []) :
    reconcile st name content disable_proxy f
      = (.issuedPost (desired_record name content disable_proxy),
         ⟨st.records ++
           [{ desired_record name content disable_proxy with id := some f }]⟩) := by
  simp [reconcile, update_zone, get_dns_record, listResponse, h, applyOutcome,
    desired_record]

/-- With exactly one matching listed record, carrying id `rid`, one
reconciliation issues an update on `rid` and the provider overwrites every
record of that id with the request body. -/
theorem reconcile_single_match (st : ProviderZoneState) (name content : String)
    (disable_proxy : Bool) (f : String) (r : DNSRecord) (rid : String)
    (h : st.records.filter (matchesQuery name "A") = [r])
    (hid : r.id = some rid) :
    reconcile st name content disable_proxy f
      = (.issuedPut rid (desired_record name content disable_proxy),
         ⟨st.records.map fun x =>
           if x.id == some rid
           then { desired_record name content disable_proxy with id := some rid }
           else x⟩) := by
  simp [reconcile, update_zone, get_dns_record, listResponse, h, hid,
    applyOutcome, desired_record]

/-- A list whose filter is a single element splits around that element. -/
theorem filter_eq_singleton_split {α : Type} (p : α → Bool) (l : List α)
    (a : α) (h : l.filter p = [a]) :
    ∃ l₁ l₂, l = l₁ ++ a :: l₂ ∧ (∀ x ∈ l₁, p x = false) ∧
      p a = true ∧ l₂.filter p = [] := by
  induction l with
  | nil => simp at h
  | cons x xs ih =>
    cases hpx : p x with
    | false =>
      rw [List.filter_cons_of_neg (by simp [hpx])] at h
      obtain ⟨l₁, l₂, hl, h1, h2, h3⟩ := ih h
      subst hl
      refine ⟨x :: l₁, l₂, rfl, ?_, h2, h3⟩
      intro y hy
      rcases List.mem_cons.mp hy with rfl | hy
      · exact hpx
      · exact h1 y hy
    | true =>
      rw [List.filter_cons_of_pos hpx] at h
      injection h with h1 h2
      subst h1
      exact ⟨[], xs, rfl, by simp, hpx, h2⟩

/-- Overwriting records by an id that no element of the list carries
changes nothing. -/
theorem map_overwrite_fresh_id (name content : String) (disable_proxy : Bool)
    (rid : String) (l : List DNSRecord) (hl : ∀ x ∈ l, x.id ≠ some rid) :
    l.map (fun x => if x.id == some rid
      then { desired_record name content disable_proxy with id := some rid }
      else x) = l := by
  have hpt : ∀ x ∈ l,
      (if x.id == some rid
        then { desired_record name content disable_proxy with id := some rid }
        else x) = x := by
    intro x hx
    rw [if_neg (by simp only [beq_iff_eq]; exact hl x hx)]
  rw [List.map_congr_left hpt, List.map_id']

/-- Witness for claim C9 on the create issued against an empty listing. -/
theorem claim9_body_fields_fixed_witness :
    (desired_record "home.example.com" "9.9.9.9" true).record_type = "A" ∧
    (desired_record "home.example.com" "9.9.9.9" true).ttl = 1 ∧
    (desired_record "home.example.com" "9.9.9.9" true).proxied = !true ∧
    (desired_record "home.example.com" "9.9.9.9" true).name = "home.example.com" ∧
    (desired_record "home.example.com" "9.9.9.9" true).content = "9.9.9.9" :=
  claim9_body_fields_fixed "home.example.com" "9.9.9.9" true
    (.ok ⟨[], true, [], []⟩) (.ok ())
    (desired_record "home.example.com" "9.9.9.9" true) rfl

/-- Claim C8, counterexample: the claim states that applying reconcile
twice with the same desired state always makes the second application an
update (not a create).  Starting from a provider state holding two records
matching the query, the first application already miscounts the listing as
"no record" and creates a third; the second application then sees three
matches and issues another create, not an update. -/
theorem claim8_counterexample :
    (reconcile (reconcile
        ⟨[⟨some "11", "home.example.com", "1.1.1.1", "A", true, 1⟩,
          ⟨some "22", "home.example.com", "2.2.2.2", "A", true, 1⟩]⟩
        "home.example.com" "3.3.3.3" false "33").2
      "home.example.com" "3.3.3.3" false "44").1
      = .issuedPost (desired_record "home.example.com" "3.3.3.3" false) := by
  rfl

/-- Claim C8, amended: provided the initial provider state lists at most
one record matching the query, stored records carry distinct ids, and the
id the provider would assign to a created record is unused, applying
reconcile twice with the same desired state leaves the provider state of
the first application unchanged, and the second application issues an
update (not a create) addressed to the id touched by the first: the id of
the record the first application created, or the id it updated. -/
theorem claim8_reconcile_idempotent (st0 : ProviderZoneState)
    (name content : String) (disable_proxy : Bool) (f1 f2 : String)
    (hlen : (st0.records.filter (matchesQuery name "A")).length ≤ 1)
    (hid : ∀ r ∈ st0.records, r.id.isSome)
    (hnodup : (st0.records.map DNSRecord.id).Nodup)
    (hfresh : ∀ r ∈ st0.records, r.id ≠ some f1) :
    (reconcile (reconcile st0 name content disable_proxy f1).2
        name content disable_proxy f2).2
      = (reconcile st0 name content disable_proxy f1).2 ∧
    ∃ rid,
      (reconcile (reconcile st0 name content disable_proxy f1).2
          name content disable_proxy f2).1
        = .issuedPut rid (desired_record name content disable_proxy) ∧
      ((reconcile st0 name content disable_proxy f1).1
          = .issuedPost (desired_record name content disable_proxy) ∧ rid = f1 ∨
       (reconcile st0 name content disable_proxy f1).1
          = .issuedPut rid (desired_record name content disable_proxy)) := by
  cases hfil : st0.records.filter (matchesQuery name "A") with
  | nil =>
    -- no match: the first application creates under f1, the second updates f1
    have h1 := reconcile_no_match st0 name content disable_proxy f1 hfil
    have hfil1 : (st0.records ++
        [{ desired_record name content disable_proxy with id := some f1 }]).filter
          (matchesQuery name "A")
        = [{ desired_record name content disable_proxy with id := some f1 }] := by
      rw [List.filter_append, hfil]
      simp [matchesQuery, desired_record]
    have h2 := reconcile_single_match
      ⟨st0.records ++
        [{ desired_record name content disable_proxy with id := some f1 }]⟩
      name content disable_proxy f2
      { desired_record name content disable_proxy with id := some f1 } f1
      (by dsimp only; exact hfil1) rfl
    have hmap : (st0.records ++
        [{ desired_record name content disable_proxy with id := some f1 }]).map
          (fun (x : DNSRecord) => if x.id == some f1
            then { desired_record name content disable_proxy with id := some f1 }
            else x)
        = st0.records ++
          [{ desired_record name content disable_proxy with id := some f1 }] := by
      rw [List.map_append,
        map_overwrite_fresh_id name content disable_proxy f1 st0.records hfresh,
        List.map_cons, List.map_nil,
        if_pos (beq_self_eq_true (some f1))]
    refine ⟨?_, f1, ?_, Or.inl ⟨?_, rfl⟩⟩
    · simp only [h1, h2]
      rw [hmap]
    · simp only [h1, h2]
    · simp only [h1]
  | cons r0 rest =>
    -- exactly one match: both applications update the id of that record
    have hrest : rest = [] := by
      rw [hfil] at hlen
      simp only [List.length_cons] at hlen
      have h0 : rest.length = 0 := by omega
      exact List.length_eq_zero.mp h0
    subst hrest
    have hfil' : st0.records.filter (matchesQuery name "A") = [r0] := hfil
    have hr0mem : r0 ∈ st0.records := by
      apply List.mem_of_mem_filter (p := matchesQuery name "A")
      rw [hfil']
      exact List.mem_singleton_self r0
    obtain ⟨rid0, hrid0⟩ := Option.isSome_iff_exists.mp (hid r0 hr0mem)
    obtain ⟨l₁, l₂, hrec, hl1, hpr0, hl2⟩ :=
      filter_eq_singleton_split (matchesQuery name "A") st0.records r0 hfil'
    have hnids : ((l₁ ++ r0 :: l₂).map DNSRecord.id).Nodup := by
      rw [← hrec]; exact hnodup
    rw [List.map_append, List.map_cons] at hnids
    have hnd := List.nodup_append.mp hnids
    have hne1 : ∀ x ∈ l₁, x.id ≠ some rid0 := by
      intro x hx heq
      exact hnd.2.2 (List.mem_map.mpr ⟨x, hx, rfl⟩)
        (by rw [heq, ← hrid0]; exact List.mem_cons_self _ _)
    have hne2 : ∀ x ∈ l₂, x.id ≠ some rid0 := by
      intro x hx heq
      exact (List.nodup_cons.mp hnd.2.1).1
        (by rw [hrid0]; exact List.mem_map.mpr ⟨x, hx, heq⟩)
    have h1 := reconcile_single_match st0 name content disable_proxy f1 r0 rid0
      hfil' hrid0
    have hmap1 : st0.records.map (fun x => if x.id == some rid0
          then { desired_record name content disable_proxy with id := some rid0 }
          else x)
        = l₁ ++ { desired_record name content disable_proxy with id := some rid0 }
            :: l₂ := by
      rw [hrec, List.map_append, List.map_cons,
        map_overwrite_fresh_id name content disable_proxy rid0 l₁ hne1,
        map_overwrite_fresh_id name content disable_proxy rid0 l₂ hne2,
        if_pos (by rw [hrid0]; exact beq_self_eq_true (some rid0))]
    have hfil2 : (l₁ ++
        { desired_record name content disable_proxy with id := some rid0 }
          :: l₂).filter (matchesQuery name "A")
        = [{ desired_record name content disable_proxy with id := some rid0 }] := by
      rw [List.filter_append,
        List.filter_eq_nil_iff.mpr (fun x hx => by simp [hl1 x hx]),
        List.filter_cons_of_pos (by simp [matchesQuery, desired_record]), hl2]
      rfl
    have h2 := reconcile_single_match
      ⟨st0.records.map (fun x => if x.id == some rid0
        then { desired_record name content disable_proxy with id := some rid0 }
        else x)⟩
      name content disable_proxy f2
      { desired_record name content disable_proxy with id := some rid0 } rid0
      (by dsimp only; rw [hmap1]; exact hfil2) rfl
    refine ⟨?_, rid0, ?_, Or.inr ?_⟩
    · simp only [h1, h2]
      rw [hmap1, List.map_append, List.map_cons,
        map_overwrite_fresh_id name content disable_proxy rid0 l₁ hne1,
        map_overwrite_fresh_id name content disable_proxy rid0 l₂ hne2,
        if_pos (beq_self_eq_true (some rid0))]
    · simp only [h1, h2]
    · simp only [h1]

/-- Witness for the amended claim C8: from an empty provider state, the
first application creates under id-1 and the second updates id-1 in place. -/
theorem claim8_reconcile_idempotent_witness :
    (reconcile (reconcile ⟨[]⟩ "home.example.com" "9.9.9.9" false "id-1").2
        "home.example.com" "9.9.9.9" false "id-2").2
      = (reconcile ⟨[]⟩ "home.example.com" "9.9.9.9" false "id-1").2 ∧
    ∃ rid,
      (reconcile (reconcile ⟨[]⟩ "home.example.com" "9.9.9.9" false "id-1").2
          "home.example.com" "9.9.9.9" false "id-2").1
        = .issuedPut rid (desired_record "home.example.com" "9.9.9.9" false) ∧
      ((reconcile ⟨[]⟩ "home.example.com" "9.9.9.9" false "id-1").1
          = .issuedPost (desired_record "home.example.com" "9.9.9.9" false) ∧
          rid = "id-1" ∨
       (reconcile ⟨[]⟩ "home.example.com" "9.9.9.9" false "id-1").1
          = .issuedPut rid (desired_record "home.example.com" "9.9.9.9" false)) :=
  claim8_reconcile_idempotent ⟨[]⟩ "home.example.com" "9.9.9.9" false "id-1" "id-2"
    (by simp) (by simp) (by simp) (by simp)

end Cfbind
